import Mathlib

/-!
Verification of the Hackbright project-tracker front end (`hackbright.py`).

The program is a thin CLI over three database tables (students, projects,
grades).  We embed the tables as lists of records, each SQL statement as a
pure function over a `DB` value, `fetchone` as `List.head?`, the unhandled
Python faults (`TypeError` on unpacking `None`, `ValueError` on a
mismatched positional unpack, `IndexError` on indexing an empty token list)
as an `Except PyError` result, and each `print` call as a returned string.
-/

/-- A row of the `students` table: `students(id, first_name, last_name, github)`. -/
structure StudentRow where
  id : Nat
  first_name : String
  last_name : String
  github : String
  deriving Repr, DecidableEq

/-- A row of the `projects` table: `projects(id, title, description, max_grade)`. -/
structure ProjectRow where
  id : Nat
  title : String
  description : String
  max_grade : Int
  deriving Repr, DecidableEq

/-- A row of the `grades` table: `grades(id, student_github, project_title, grade)`. -/
structure GradeRow where
  id : Nat
  student_github : String
  project_title : String
  grade : Int
  deriving Repr, DecidableEq

/-- The database state seen by the program: the three pre-existing tables.
Row order models the physical row order the cursor iterates in. -/
structure DB where
  students : List StudentRow
  projects : List ProjectRow
  grades : List GradeRow
  deriving Repr, DecidableEq

/-- The unhandled Python faults the program can raise. -/
inductive PyError where
  /-- unpacking `None` (a missing `fetchone` result) -/
  | typeError
  /-- positional unpack of a list of the wrong length -/
  | valueError
  /-- indexing an empty list (`tokens[0]`) -/
  | indexError
  /-- `input()` at end of input (models the loop blocking forever) -/
  | eofError
  deriving Repr, DecidableEq

/-- `SELECT first_name, last_name, github FROM students WHERE github = :github`. -/
def studentQuery (db : DB) (github : String) : List (String × String × String) :=
  (db.students.filter (fun s => s.github = github)).map
    (fun s => (s.first_name, s.last_name, s.github))

/-- `get_student_by_github`: run `studentQuery`, `fetchone`, unpack, print. -/
def get_student_by_github (db : DB) (github : String) : Except PyError String :=
  match (studentQuery db github).head? with
  | none => .error .typeError
  | some (f, l, g) =>
      .ok ("Student: " ++ f ++ " " ++ l ++ "\nGitHub account: " ++ g)

/-- Fresh surrogate id for an inserted student row. -/
def freshStudentId (db : DB) : Nat := db.students.length

/-- `make_new_student`: `INSERT INTO students ... VALUES (...)`, commit, print.
Returns the new database state and the printed confirmation. -/
def make_new_student (db : DB) (first_name last_name github : String) :
    DB × String :=
  ({ db with students :=
      db.students ++ [⟨freshStudentId db, first_name, last_name, github⟩] },
   "Successfully added " ++ first_name ++ " " ++ last_name ++ ".")

/-- `SELECT title, description, max_grade FROM projects WHERE title = :title`. -/
def projectQuery (db : DB) (title : String) : List (String × String × Int) :=
  (db.projects.filter (fun p => p.title = title)).map
    (fun p => (p.title, p.description, p.max_grade))

/-- `get_project_by_title`: run `projectQuery`, `fetchone`, unpack, print. -/
def get_project_by_title (db : DB) (title : String) : Except PyError String :=
  match (projectQuery db title).head? with
  | none => .error .typeError
  | some (t, d, m) =>
      .ok (t ++ ": " ++ d ++ "\nMax grade: " ++ toString m)

/-- The rows one student contributes to the `LEFT JOIN`: one pair per
matching grade row, or a single `NULL`-extended pair (`none`) when no grade
row matches the join condition. -/
def leftJoinOne (grades : List GradeRow) (s : StudentRow) :
    List (StudentRow × Option GradeRow) :=
  match grades.filter (fun g => g.student_github = s.github) with
  | [] => [(s, none)]
  | ms => ms.map (fun g => (s, some g))

/-- The raw `students LEFT JOIN grades ON (grades.student_github =
students.github)` result: every student paired with each matching grade row,
or with `none` (SQL `NULL` extension) when no grade row matches the join
condition. -/
def leftJoinRows (db : DB) : List (StudentRow × Option GradeRow) :=
  db.students.flatMap (leftJoinOne db.grades)

/-- The `WHERE grades.project_title = :title AND grades.student_github =
:github` clause under SQL three-valued logic: a `NULL`-extended row never
compares equal, so only rows carrying a real grade can pass. -/
def wherePass (title github : String) : StudentRow × Option GradeRow → Bool
  | (_, none) => false
  | (_, some g) => g.project_title = title && g.student_github = github

/-- `SELECT first_name, last_name, grade FROM students LEFT JOIN grades ON
(grades.student_github = students.github) WHERE grades.project_title = :title
AND grades.student_github = :github`.  The grade column is nullable in SQL,
hence `Option Int`. -/
def gradeQuery (db : DB) (github title : String) :
    List (String × String × Option Int) :=
  ((leftJoinRows db).filter (wherePass title github)).map
    (fun r => (r.1.first_name, r.1.last_name, r.2.map (fun g => g.grade)))

/-- How Python renders the fetched grade column in the f-string. -/
def renderGrade : Option Int → String
  | none => "None"
  | some n => toString n

/-- `get_grade_by_github_title`: run `gradeQuery`, `fetchone`, unpack, print. -/
def get_grade_by_github_title (db : DB) (github title : String) :
    Except PyError String :=
  match (gradeQuery db github title).head? with
  | none => .error .typeError
  | some (f, l, g) =>
      .ok (f ++ " " ++ l ++ "\x27s " ++ title ++ " project received " ++
           renderGrade g ++ " points")

/-- Fresh surrogate id for an inserted grade row. -/
def freshGradeId (db : DB) : Nat := db.grades.length

/-- `assign_grade`: `INSERT INTO grades ... VALUES (...)`, commit, print.
Returns the new database state and the printed confirmation. -/
def assign_grade (db : DB) (github title : String) (grade : Int) :
    DB × String :=
  ({ db with grades :=
      db.grades ++ [⟨freshGradeId db, github, title, grade⟩] },
   "Successfully graded " ++ github ++ "\x27s " ++ title ++ " project " ++
     toString grade ++ " points.")

/-- The Python `str.split()` method with no argument: split on runs of
whitespace, discarding empty pieces. -/
def pySplit (s : String) : List String :=
  ((s.data.splitOnP Char.isWhitespace).filter (fun t => t ≠ [])).map
    (fun cs => String.mk cs)

/-- The prompt `handle_input` passes to `input()`. -/
def promptString : String := "HBA Database> "

/-- The dispatch on the first token inside the `handle_input` loop body.
Returns the new database state, the strings printed this iteration, and
whether the `while command != "quit"` condition now ends the loop. -/
def handleCommand (db : DB) (command : String) (args : List String) :
    Except PyError (DB × List String × Bool) :=
  if command = "student" then
    match args with
    | [] => .error .indexError
    | github :: _ =>
      match get_student_by_github db github with
      | .error e => .error e
      | .ok out => .ok (db, [out], false)
  else if command = "new_student" then
    match args with
    | [f, l, g] =>
      let r := make_new_student db f l g
      .ok (r.1, [r.2], false)
    | _ => .error .valueError
  else if command = "quit" then
    .ok (db, [], true)
  else
    .ok (db, ["Invalid Entry. Try again."], false)

/-- One iteration of the `handle_input` loop body on one input line:
tokenize, read the first token, dispatch. -/
def handleLine (db : DB) (line : String) :
    Except PyError (DB × List String × Bool) :=
  match pySplit line with
  | [] => .error .indexError
  | command :: args => handleCommand db command args

/-- `handle_input` run over a finite list of input lines: iterate `handleLine`
until the quit token ends the loop; running out of lines models the blocked
`input()` call. -/
def handle_input (db : DB) : List String → Except PyError (DB × List String)
  | [] => .error .eofError
  | line :: rest =>
    match handleLine db line with
    | .error e => .error e
    | .ok (db2, out, true) => .ok (db2, out)
    | .ok (db2, out, false) =>
      match handle_input db2 rest with
      | .error e => .error e
      | .ok (db3, out2) => .ok (db3, out ++ out2)

/-- The actions the `if __name__ == "__main__":` block performs, in order.
In the source the `handle_input()` call is commented out, so the reachable
main path only connects and then closes the session. -/
inductive MainAction where
  | connect
  | promptLoop
  | closeSession
  deriving Repr, DecidableEq

/-- The reachable `__main__` path of `hackbright.py`. -/
def mainActions : List MainAction := [.connect, .closeSession]

/-- For comparison with `gradeQuery`: the plain inner join of students and
grades on the join condition, kept under the same `WHERE` filters and the
same projection.  `gradeQuery` behaving "as an inner join" means it equals
this. -/
def innerGradeQuery (db : DB) (github title : String) :
    List (String × String × Option Int) :=
  db.students.flatMap (fun s =>
    ((db.grades.filter (fun g => g.student_github = s.github)).filter
        (fun g => g.project_title = title && g.student_github = github)).map
      (fun g => (s.first_name, s.last_name, some g.grade)))

/-- A concrete database state used to instantiate the theorems: one student,
one project, one grade, mirroring the sample data of the exercise. -/
def dbW : DB :=
  { students := [⟨1, "Jane", "Hacker", "jhacks"⟩],
    projects := [⟨1, "Markdown Challenge", "Markdown is a skill", 50⟩],
    grades := [⟨1, "jhacks", "Markdown Challenge", 10⟩] }

/-- Re-filtering the left-join rows of one student by the `WHERE` clause
keeps exactly the real grade matches: the `NULL`-extended pair never passes. -/
theorem leftJoinOne_filter_wherePass (grades : List GradeRow) (s : StudentRow)
    (title github : String) :
    (leftJoinOne grades s).filter (wherePass title github)
      = ((grades.filter (fun g => g.student_github = s.github)).filter
          (fun g => g.project_title = title && g.student_github = github)).map
          (fun g => (s, some g)) := by
  unfold leftJoinOne
  rcases h : grades.filter (fun g => g.student_github = s.github) with _ | ⟨g0, ms⟩
  · rw [h]
    simp [wherePass]
  · rw [h, List.filter_map]
    rfl

/-- The `LEFT JOIN` query, once re-filtered by the `WHERE` clause, equals the
plain inner join: the `WHERE` comparisons on `grades` columns eliminate every
`NULL`-extended row. -/
theorem gradeQuery_eq_innerGradeQuery (db : DB) (github title : String) :
    gradeQuery db github title = innerGradeQuery db github title := by
  unfold gradeQuery leftJoinRows innerGradeQuery
  induction db.students with
  | nil => rfl
  | cons a l ih =>
    rw [List.flatMap_cons, List.flatMap_cons, List.filter_append, List.map_append,
        ih, leftJoinOne_filter_wherePass, List.map_map]
    rfl

/-- When no grade row carries both the queried handle and the queried title,
the grade query returns no row at all. -/
theorem gradeQuery_eq_nil_of_no_match (db : DB) (github title : String)
    (hg : ∀ g ∈ db.grades, ¬(g.student_github = github ∧ g.project_title = title)) :
    gradeQuery db github title = [] := by
  rw [gradeQuery_eq_innerGradeQuery]
  unfold innerGradeQuery
  induction db.students with
  | nil => rfl
  | cons a l ih =>
    rw [List.flatMap_cons, ih]
    have h2 : (db.grades.filter (fun g => g.student_github = a.github)).filter
        (fun g => g.project_title = title && g.student_github = github) = [] := by
      rw [List.filter_eq_nil_iff]
      intro g hgmem
      have hmem : g ∈ db.grades := (List.mem_filter.mp hgmem).1
      intro hpass
      rcases Bool.and_eq_true_iff.mp hpass with ⟨ht, hh⟩
      exact hg g hmem ⟨of_decide_eq_true hh, of_decide_eq_true ht⟩
    rw [h2]
    rfl

/-- After inserting a student with a previously unused handle, the student
query for that handle returns exactly the inserted name. -/
theorem studentQuery_make_new_student (db : DB) (first last github : String)
    (h : ∀ s ∈ db.students, s.github ≠ github) :
    studentQuery (make_new_student db first last github).1 github
      = [(first, last, github)] := by
  show ((db.students ++ [StudentRow.mk (freshStudentId db) first last github]).filter
      (fun (s : StudentRow) => s.github = github)).map
      (fun (s : StudentRow) => (s.first_name, s.last_name, s.github)) = _
  rw [List.filter_append]
  have h1 : db.students.filter (fun s => decide (s.github = github)) = [] :=
    List.filter_eq_nil_iff.mpr (fun s hs => by simpa using h s hs)
  rw [h1]
  simp

/-- Folding a one-or-zero-element producer over a list is a filter followed
by a map. -/
theorem flatMap_ite_singleton {α β : Type} (l : List α) (p : α → Prop)
    [DecidablePred p] (F : α → β) :
    (l.flatMap fun a => if p a then [F a] else []) = (l.filter (fun a => p a)).map F := by
  induction l with
  | nil => rfl
  | cons a l ih =>
    rw [List.flatMap_cons, List.filter_cons]
    by_cases h : p a
    · rw [if_pos h, ih]
      simp [h]
    · rw [if_neg h, ih]
      simp [h]

/-- After `assign_grade github title grade` on a database holding no earlier
grade row for that pair, the grade query for the pair returns one row per
student with that handle, each carrying the new grade. -/
theorem gradeQuery_assign_grade (db : DB) (github title : String) (grade : Int)
    (hg : ∀ g ∈ db.grades, ¬(g.student_github = github ∧ g.project_title = title)) :
    gradeQuery (assign_grade db github title grade).1 github title
      = (db.students.filter (fun s => s.github = github)).map
          (fun s => (s.first_name, s.last_name, some grade)) := by
  rw [gradeQuery_eq_innerGradeQuery]
  show (db.students.flatMap fun (s : StudentRow) =>
      (((db.grades ++ [GradeRow.mk (freshGradeId db) github title grade]).filter
          (fun (g : GradeRow) => g.student_github = s.github)).filter
          (fun (g : GradeRow) => g.project_title = title && g.student_github = github)).map
        (fun (g : GradeRow) => (s.first_name, s.last_name, some g.grade))) = _
  have key : ∀ s : StudentRow,
      (((db.grades ++ [GradeRow.mk (freshGradeId db) github title grade]).filter
          (fun (g : GradeRow) => g.student_github = s.github)).filter
          (fun (g : GradeRow) => g.project_title = title && g.student_github = github)).map
        (fun (g : GradeRow) => (s.first_name, s.last_name, some g.grade))
      = if s.github = github then [(s.first_name, s.last_name, some grade)] else [] := by
    intro s
    rw [List.filter_append, List.filter_append]
    have hold : (db.grades.filter (fun g => decide (g.student_github = s.github))).filter
        (fun g => decide (g.project_title = title) && decide (g.student_github = github))
        = [] := by
      rw [List.filter_eq_nil_iff]
      intro g hgmem
      have hmem : g ∈ db.grades := (List.mem_filter.mp hgmem).1
      intro hpass
      rcases Bool.and_eq_true_iff.mp hpass with ⟨ht, hh⟩
      exact hg g hmem ⟨of_decide_eq_true hh, of_decide_eq_true ht⟩
    rw [hold]
    by_cases h : s.github = github
    · simp [h]
    · have h2 : github ≠ s.github := fun e => h e.symm
      simp [h, h2]
  calc (db.students.flatMap fun (s : StudentRow) =>
      (((db.grades ++ [GradeRow.mk (freshGradeId db) github title grade]).filter
          (fun (g : GradeRow) => g.student_github = s.github)).filter
          (fun (g : GradeRow) => g.project_title = title && g.student_github = github)).map
        (fun (g : GradeRow) => (s.first_name, s.last_name, some g.grade)))
      = db.students.flatMap (fun s =>
          if s.github = github then [(s.first_name, s.last_name, some grade)] else []) := by
        rw [List.flatMap_congr (fun s _ => key s)]
    _ = (db.students.filter (fun s => s.github = github)).map
          (fun s => (s.first_name, s.last_name, some grade)) :=
        flatMap_ite_singleton db.students (fun s => s.github = github)
          (fun s => (s.first_name, s.last_name, some grade))

/-- C1: for every read accessor (`get_student_by_github`,
`get_project_by_title`, `get_grade_by_github_title`), if the query matches
zero rows, the fetched row is `None` and the three-way unpack raises an
unhandled fault (`TypeError`), not a graceful "not found" report. -/
theorem read_accessors_fault_on_zero_rows (db : DB) (github title gh t : String)
    (h1 : ∀ s ∈ db.students, s.github ≠ github)
    (h2 : ∀ p ∈ db.projects, p.title ≠ title)
    (h3 : ∀ g ∈ db.grades, ¬(g.student_github = gh ∧ g.project_title = t)) :
    get_student_by_github db github = .error .typeError ∧
    get_project_by_title db title = .error .typeError ∧
    get_grade_by_github_title db gh t = .error .typeError := by
  refine ⟨?_, ?_, ?_⟩
  · have hq : studentQuery db github = [] := by
      unfold studentQuery
      rw [List.filter_eq_nil_iff.mpr (fun s hs => by simpa using h1 s hs)]
      rfl
    unfold get_student_by_github
    rw [hq]
    rfl
  · have hq : projectQuery db title = [] := by
      unfold projectQuery
      rw [List.filter_eq_nil_iff.mpr (fun p hp => by simpa using h2 p hp)]
      rfl
    unfold get_project_by_title
    rw [hq]
    rfl
  · have hq := gradeQuery_eq_nil_of_no_match db gh t h3
    unfold get_grade_by_github_title
    rw [hq]
    rfl

/-- Witness for C1: a concrete database on which each accessor is queried
with a key matching zero rows and faults. -/
theorem read_accessors_fault_on_zero_rows_witness :
    get_student_by_github dbW "nobody" = .error .typeError ∧
    get_project_by_title dbW "Nothing" = .error .typeError ∧
    get_grade_by_github_title dbW "jhacks" "Kalculator" = .error .typeError :=
  read_accessors_fault_on_zero_rows dbW "nobody" "Nothing" "jhacks" "Kalculator"
    (by decide) (by decide) (by decide)

/-- C2: inserting a student with `make_new_student` and immediately calling
`get_student_by_github` on the same handle prints the just-inserted first and
last name, provided no row with that handle pre-exists. -/
theorem make_new_student_then_get_student (db : DB) (first last github : String)
    (h : ∀ s ∈ db.students, s.github ≠ github) :
    get_student_by_github (make_new_student db first last github).1 github
      = .ok ("Student: " ++ first ++ " " ++ last ++
             "\nGitHub account: " ++ github) := by
  unfold get_student_by_github
  rw [studentQuery_make_new_student db first last github h]
  rfl

/-- Witness for C2 at a concrete database and a fresh handle. -/
theorem make_new_student_then_get_student_witness :
    get_student_by_github (make_new_student dbW "Sarah" "Coder" "scoder").1 "scoder"
      = .ok "Student: Sarah Coder\nGitHub account: scoder" :=
  make_new_student_then_get_student dbW "Sarah" "Coder" "scoder" (by decide)

/-- C8: when exactly one students row matches the handle,
`get_student_by_github` prints exactly the stored first and last name on a
"Student:" line followed by a "GitHub account:" line with the handle. -/
theorem get_student_by_github_single_row (db : DB) (github : String)
    (s : StudentRow)
    (h : db.students.filter (fun r => r.github = github) = [s]) :
    get_student_by_github db github
      = .ok ("Student: " ++ s.first_name ++ " " ++ s.last_name ++
             "\nGitHub account: " ++ github) := by
  have hs : s.github = github := by
    have hmem : s ∈ db.students.filter (fun r => r.github = github) := by
      rw [h]
      exact List.mem_singleton_self s
    simpa using (List.mem_filter.mp hmem).2
  unfold get_student_by_github studentQuery
  rw [h]
  simp [hs]

/-- Witness for C8 at the concrete database, whose only student row matches
the queried handle. -/
theorem get_student_by_github_single_row_witness :
    get_student_by_github dbW "jhacks"
      = .ok ("Student: " ++ "Jane" ++ " " ++ "Hacker" ++
             "\nGitHub account: " ++ "jhacks") :=
  get_student_by_github_single_row dbW "jhacks" ⟨1, "Jane", "Hacker", "jhacks"⟩
    (by decide)

/-- C4: the `LEFT JOIN` re-filtered by the `WHERE` clause behaves as an inner
join: it equals the plain inner join, no returned row ever carries a null
grade, and when the handle exists but no grade row matches both handle and
title the query yields no row at all, so the accessor hits the fatal unpack
fault. -/
theorem gradeQuery_behaves_as_inner_join (db : DB) (github title : String) :
    gradeQuery db github title = innerGradeQuery db github title ∧
    (∀ r ∈ gradeQuery db github title, r.2.2 ≠ none) ∧
    ((∃ s ∈ db.students, s.github = github) →
      (∀ g ∈ db.grades, ¬(g.student_github = github ∧ g.project_title = title)) →
      gradeQuery db github title = [] ∧
      get_grade_by_github_title db github title = .error .typeError) := by
  refine ⟨gradeQuery_eq_innerGradeQuery db github title, ?_, ?_⟩
  · intro r hr
    rw [gradeQuery_eq_innerGradeQuery] at hr
    unfold innerGradeQuery at hr
    rcases List.mem_flatMap.mp hr with ⟨s, _, hrs⟩
    rcases List.mem_map.mp hrs with ⟨g, _, hrg⟩
    rw [← hrg]
    simp
  · intro _ hg
    have hq := gradeQuery_eq_nil_of_no_match db github title hg
    refine ⟨hq, ?_⟩
    unfold get_grade_by_github_title
    rw [hq]
    rfl

/-- Witness for C4: on the concrete database the student exists but no grade
row matches the pair, and the query indeed returns nothing. -/
theorem gradeQuery_behaves_as_inner_join_witness :
    gradeQuery dbW "jhacks" "Kalculator" = [] ∧
    get_grade_by_github_title dbW "jhacks" "Kalculator" = .error .typeError :=
  (gradeQuery_behaves_as_inner_join dbW "jhacks" "Kalculator").2.2
    ⟨⟨1, "Jane", "Hacker", "jhacks"⟩, by decide, rfl⟩ (by decide)

/-- C3: calling `assign_grade` with a handle, title and grade and then
`get_grade_by_github_title` on the same pair prints a message containing the
assigned grade followed by " points", provided a student row for the handle
exists (the first matching row is `s1`) and no earlier grade row for the
pair precedes the new one. -/
theorem assign_grade_then_get_grade (db : DB) (github title : String)
    (grade : Int) (s1 : StudentRow)
    (hs : (db.students.filter (fun s => s.github = github)).head? = some s1)
    (hg : ∀ g ∈ db.grades, ¬(g.student_github = github ∧ g.project_title = title)) :
    ∃ pre,
      get_grade_by_github_title (assign_grade db github title grade).1 github title
        = .ok (pre ++ (toString grade ++ " points")) := by
  have hq := gradeQuery_assign_grade db github title grade hg
  refine ⟨s1.first_name ++ " " ++ s1.last_name ++ "\x27s " ++ title ++
    " project received ", ?_⟩
  unfold get_grade_by_github_title
  rw [hq, List.head?_map, hs]
  show Except.ok (s1.first_name ++ " " ++ s1.last_name ++ "\x27s " ++ title ++
      " project received " ++ toString grade ++ " points") = _
  rw [← String.append_assoc]

/-- Witness for C3: grading jhacks on a fresh project title and reading the
grade back yields a message ending in "98 points". -/
theorem assign_grade_then_get_grade_witness :
    ∃ pre,
      get_grade_by_github_title
          (assign_grade dbW "jhacks" "Kalculator" 98).1 "jhacks" "Kalculator"
        = .ok (pre ++ (toString (98 : Int) ++ " points")) :=
  assign_grade_then_get_grade dbW "jhacks" "Kalculator" 98
    ⟨1, "Jane", "Hacker", "jhacks"⟩ (by decide) (by decide)

/-- C5: a command-loop line whose tokens are `new_student` plus three
arguments drives exactly the direct `make_new_student` call: same resulting
database state and same printed confirmation. -/
theorem new_student_command_equals_direct_call (db : DB)
    (line first last github : String)
    (h : pySplit line = ["new_student", first, last, github]) :
    handleLine db line
      = .ok ((make_new_student db first last github).1,
             [(make_new_student db first last github).2], false) := by
  unfold handleLine
  rw [h]
  rfl

/-- Witness for C5: the literal line from the spec example. -/
theorem new_student_command_equals_direct_call_witness :
    handleLine dbW "new_student Jane Hacker jhacks"
      = .ok ((make_new_student dbW "Jane" "Hacker" "jhacks").1,
             [(make_new_student dbW "Jane" "Hacker" "jhacks").2], false) :=
  new_student_command_equals_direct_call dbW "new_student Jane Hacker jhacks"
    "Jane" "Hacker" "jhacks" (by decide)

/-- C6: a line whose first token is not `student`, `new_student` or `quit`
leaves the database unchanged and prints "Invalid Entry. Try again."; a line
whose first token is `quit` ends the loop with no further output and no
database change. -/
theorem unrecognized_and_quit_commands (db : DB) (line cmd : String)
    (args : List String)
    (h : pySplit line = cmd :: args)
    (h1 : cmd ≠ "student") (h2 : cmd ≠ "new_student") :
    (cmd ≠ "quit" →
      handleLine db line = .ok (db, ["Invalid Entry. Try again."], false)) ∧
    (cmd = "quit" →
      handleLine db line = .ok (db, [], true) ∧
      ∀ rest, handle_input db (line :: rest) = .ok (db, [])) := by
  constructor
  · intro h3
    unfold handleLine
    rw [h]
    show handleCommand db cmd args = _
    unfold handleCommand
    rw [if_neg h1, if_neg h2, if_neg h3]
  · intro h3
    subst h3
    have hl : handleLine db line = .ok (db, [], true) := by
      unfold handleLine
      rw [h]
      rfl
    refine ⟨hl, fun rest => ?_⟩
    unfold handle_input
    rw [hl]

/-- Witness for C6: `foobar` prints the invalid-entry message on the
unchanged database; `quit` ends the loop at once with no output. -/
theorem unrecognized_and_quit_commands_witness :
    (handleLine dbW "foobar" = .ok (dbW, ["Invalid Entry. Try again."], false)) ∧
    (handleLine dbW "quit" = .ok (dbW, [], true) ∧
      handle_input dbW ["quit"] = .ok (dbW, [])) := by
  refine ⟨(unrecognized_and_quit_commands dbW "foobar" "foobar" []
    (by decide) (by decide) (by decide)).1 (by decide), ?_⟩
  have h := (unrecognized_and_quit_commands dbW "quit" "quit" []
    (by decide) (by decide) (by decide)).2 rfl
  exact ⟨h.1, h.2 []⟩

/-- C7 counterexample: the claim that the reachable main path presents the
prompt is false: the `handle_input()` call is commented out, so the prompt
loop never appears among the actions of `__main__`. -/
theorem main_path_has_no_prompt_loop : MainAction.promptLoop ∉ mainActions := by
  decide

/-- C7 (amended): when the program is invoked as a script, the reachable
main path only connects to the database and closes the session; the
interactive prompt "HBA Database> " belongs to `handle_input`, which main
never calls. -/
theorem main_path_connects_and_closes_only :
    mainActions = [MainAction.connect, MainAction.closeSession] ∧
    MainAction.promptLoop ∉ mainActions ∧
    promptString = "HBA Database> " :=
  ⟨rfl, by decide, rfl⟩

/-- C9: a `new_student` line with fewer than three further arguments raises
an unhandled fault (`ValueError` from the three-way positional unpack) and
inserts no database row: the loop propagates the fault with the database
untouched. -/
theorem new_student_too_few_args_faults (db : DB) (line : String)
    (args : List String)
    (h : pySplit line = "new_student" :: args) (hlen : args.length < 3) :
    handleLine db line = .error .valueError ∧
    ∀ rest, handle_input db (line :: rest) = .error .valueError := by
  have hl : handleLine db line = .error .valueError := by
    unfold handleLine
    rw [h]
    rcases args with _ | ⟨a, _ | ⟨b, _ | ⟨c, rest⟩⟩⟩
    · rfl
    · rfl
    · rfl
    · exfalso
      simp at hlen
      omega
  refine ⟨hl, fun rest => ?_⟩
  unfold handle_input
  rw [hl]

/-- Witness for C9: `new_student Jane Hacker` supplies two arguments and
faults without inserting. -/
theorem new_student_too_few_args_faults_witness :
    handleLine dbW "new_student Jane Hacker" = .error .valueError ∧
    handle_input dbW ["new_student Jane Hacker"] = .error .valueError := by
  have h := new_student_too_few_args_faults dbW "new_student Jane Hacker"
    ["Jane", "Hacker"] (by decide) (by decide)
  exact ⟨h.1, h.2 []⟩

/-- C10: a line consisting only of whitespace tokenizes to an empty list, and
indexing its first token raises an unhandled fault (`IndexError`), rather
than reprompting or printing the invalid-entry message. -/
theorem whitespace_only_line_faults (db : DB) (line : String)
    (h : pySplit line = []) :
    handleLine db line = .error .indexError ∧
    ∀ rest, handle_input db (line :: rest) = .error .indexError := by
  have hl : handleLine db line = .error .indexError := by
    unfold handleLine
    rw [h]
  refine ⟨hl, fun rest => ?_⟩
  unfold handle_input
  rw [hl]

/-- Witness for C10: a line of three spaces faults at the first-token index. -/
theorem whitespace_only_line_faults_witness :
    handleLine dbW "   " = .error .indexError ∧
    handle_input dbW ["   "] = .error .indexError := by
  have h := whitespace_only_line_faults dbW "   " (by decide)
  exact ⟨h.1, h.2 []⟩
